import Mathlib

/-!
Verification of the liver-atlas viewer core against its specification.

The development shallowly embeds the spatial-transform subsystem
(transforms.py), the slice engine (slice_utils.py, callbacks.py), the
geometric similarity comparator (geometry_utils.py) and the segmentation
reconstruction pipeline (segmentation_utils.py).

Modelling conventions:
- Python floats are modelled as exact rationals; the one genuinely real
  operation, math.sqrt, is modelled by Real.sqrt inside propositions.
- vtkTransform objects are modelled by their current 4x4 homogeneous
  matrix over the rationals.  vtkTransform defaults to PreMultiply mode,
  so SetMatrix(m) sets the matrix, and Concatenate(m) / Scale / RotateX /
  RotateY / RotateZ / Translate multiply the new matrix on the RIGHT of
  the current one: the operation concatenated last acts on a point first.
- Rotations are only ever requested at 90, 180 and -90 degrees, whose
  cosines and sines are exact rationals, so the rotation matrices stay
  rational.
-/

/-- A 4x4 homogeneous transform matrix over the rationals, with entry
mIJ in row I, column J. -/
structure M4 where
  m00 : ℚ
  m01 : ℚ
  m02 : ℚ
  m03 : ℚ
  m10 : ℚ
  m11 : ℚ
  m12 : ℚ
  m13 : ℚ
  m20 : ℚ
  m21 : ℚ
  m22 : ℚ
  m23 : ℚ
  m30 : ℚ
  m31 : ℚ
  m32 : ℚ
  m33 : ℚ
deriving DecidableEq

/-- A 3D point with rational coordinates. -/
abbrev V3 := ℚ × ℚ × ℚ

/-- The identity transform (vtkTransform freshly constructed, or after Identity()). -/
def idM4 : M4 :=
  ⟨1,0,0,0, 0,1,0,0, 0,0,1,0, 0,0,0,1⟩

/-- Matrix product of two homogeneous transforms. -/
def mmul (a b : M4) : M4 where
  m00 := a.m00 * b.m00 + a.m01 * b.m10 + a.m02 * b.m20 + a.m03 * b.m30
  m01 := a.m00 * b.m01 + a.m01 * b.m11 + a.m02 * b.m21 + a.m03 * b.m31
  m02 := a.m00 * b.m02 + a.m01 * b.m12 + a.m02 * b.m22 + a.m03 * b.m32
  m03 := a.m00 * b.m03 + a.m01 * b.m13 + a.m02 * b.m23 + a.m03 * b.m33
  m10 := a.m10 * b.m00 + a.m11 * b.m10 + a.m12 * b.m20 + a.m13 * b.m30
  m11 := a.m10 * b.m01 + a.m11 * b.m11 + a.m12 * b.m21 + a.m13 * b.m31
  m12 := a.m10 * b.m02 + a.m11 * b.m12 + a.m12 * b.m22 + a.m13 * b.m32
  m13 := a.m10 * b.m03 + a.m11 * b.m13 + a.m12 * b.m23 + a.m13 * b.m33
  m20 := a.m20 * b.m00 + a.m21 * b.m10 + a.m22 * b.m20 + a.m23 * b.m30
  m21 := a.m20 * b.m01 + a.m21 * b.m11 + a.m22 * b.m21 + a.m23 * b.m31
  m22 := a.m20 * b.m02 + a.m21 * b.m12 + a.m22 * b.m22 + a.m23 * b.m32
  m23 := a.m20 * b.m03 + a.m21 * b.m13 + a.m22 * b.m23 + a.m23 * b.m33
  m30 := a.m30 * b.m00 + a.m31 * b.m10 + a.m32 * b.m20 + a.m33 * b.m30
  m31 := a.m30 * b.m01 + a.m31 * b.m11 + a.m32 * b.m21 + a.m33 * b.m31
  m32 := a.m30 * b.m02 + a.m31 * b.m12 + a.m32 * b.m22 + a.m33 * b.m32
  m33 := a.m30 * b.m03 + a.m31 * b.m13 + a.m32 * b.m23 + a.m33 * b.m33

/-- The matrix of Scale(sx, sy, sz). -/
def scaleM (sx sy sz : ℚ) : M4 :=
  ⟨sx,0,0,0, 0,sy,0,0, 0,0,sz,0, 0,0,0,1⟩

/-- The matrix of Translate(tx, ty, tz). -/
def transM (tx ty tz : ℚ) : M4 :=
  ⟨1,0,0,tx, 0,1,0,ty, 0,0,1,tz, 0,0,0,1⟩

/-- The matrix of RotateX(90): cos 90 = 0, sin 90 = 1. -/
def rotX90M : M4 :=
  ⟨1,0,0,0, 0,0,-1,0, 0,1,0,0, 0,0,0,1⟩

/-- The matrix of RotateZ(180): cos 180 = -1, sin 180 = 0. -/
def rotZ180M : M4 :=
  ⟨-1,0,0,0, 0,-1,0,0, 0,0,1,0, 0,0,0,1⟩

/-- The matrix of RotateY(-90): cos(-90) = 0, sin(-90) = -1. -/
def rotYm90M : M4 :=
  ⟨0,0,-1,0, 0,1,0,0, 1,0,0,0, 0,0,0,1⟩

/-- The matrix of RotateZ(90): cos 90 = 0, sin 90 = 1. -/
def rotZ90M : M4 :=
  ⟨0,-1,0,0, 1,0,0,0, 0,0,1,0, 0,0,0,1⟩

/-- vtkTransform.Concatenate(m) in the default PreMultiply mode:
the current matrix is multiplied by m on the right, so m acts on a
point before the previously accumulated transformation. -/
def vtkConcat (cur m : M4) : M4 := mmul cur m

/-- vtkTransform.Scale(sx, sy, sz) in PreMultiply mode. -/
def vtkScale (cur : M4) (sx sy sz : ℚ) : M4 := mmul cur (scaleM sx sy sz)

/-- vtkTransform.Translate(tx, ty, tz) in PreMultiply mode. -/
def vtkTranslate (cur : M4) (tx ty tz : ℚ) : M4 := mmul cur (transM tx ty tz)

/-- Apply a homogeneous transform to a 3D point (w = 1; every matrix in
this development has bottom row (0,0,0,1), so no perspective division is
needed). -/
def applyM (a : M4) (p : V3) : V3 :=
  (a.m00 * p.1 + a.m01 * p.2.1 + a.m02 * p.2.2 + a.m03,
   a.m10 * p.1 + a.m11 * p.2.1 + a.m12 * p.2.2 + a.m13,
   a.m20 * p.1 + a.m21 * p.2.1 + a.m22 * p.2.2 + a.m23)

/-- A transform is affine when its bottom row is (0,0,0,1); all matrices
built by this program are. -/
def affineRow (b : M4) : Prop :=
  b.m30 = 0 ∧ b.m31 = 0 ∧ b.m32 = 0 ∧ b.m33 = 1

/-! ## SliceOrder (transforms.py)

The orientation matrix table.  The five hand-built matrices are entered
element by element in the source (SetElement calls on a zeroed matrix);
they are transcribed here row by row. -/

/-- si matrix (transforms.py): X:=X, Y:=Z, Z:=-Y. -/
def si_mat : M4 :=
  ⟨1,0,0,0, 0,0,1,0, 0,-1,0,0, 0,0,0,1⟩

/-- is matrix (transforms.py): X:=X, Y:=-Z, Z:=-Y. -/
def is_mat : M4 :=
  ⟨1,0,0,0, 0,0,-1,0, 0,-1,0,0, 0,0,0,1⟩

/-- lr matrix (transforms.py): X:=-Z, Y:=-Y, Z:=X. -/
def lr_mat : M4 :=
  ⟨0,0,-1,0, 0,-1,0,0, 1,0,0,0, 0,0,0,1⟩

/-- rl matrix (transforms.py): X:=Z, Y:=-Y, Z:=X. -/
def rl_mat : M4 :=
  ⟨0,0,1,0, 0,-1,0,0, 1,0,0,0, 0,0,0,1⟩

/-- hf matrix (transforms.py): X:=-X, Y:=Y, Z:=-Z. -/
def hf_mat : M4 :=
  ⟨-1,0,0,0, 0,1,0,0, 0,0,-1,0, 0,0,0,1⟩

/-- The transform dictionary built by SliceOrder.__init__, in insertion
order.  Composite entries follow the source exactly: SetMatrix(hf_mat)
then Concatenate(base) or Scale(...), with PreMultiply semantics. -/
def sliceOrderTable : List (String × M4) :=
  [ ("si", si_mat),
    ("is", is_mat),
    ("ap", vtkScale idM4 1 (-1) 1),
    ("pa", vtkScale idM4 1 (-1) (-1)),
    ("lr", lr_mat),
    ("rl", rl_mat),
    ("hf", hf_mat),
    ("hfsi", vtkConcat hf_mat si_mat),
    ("hfis", vtkConcat hf_mat is_mat),
    ("hfap", vtkScale hf_mat 1 (-1) 1),
    ("hfpa", vtkScale hf_mat 1 (-1) (-1)),
    ("hflr", vtkConcat hf_mat lr_mat),
    ("hfrl", vtkConcat hf_mat rl_mat),
    ("I", idM4),
    ("Z", vtkScale idM4 0 0 0) ]

/-- The codes stored in the table, in insertion order. -/
def sliceOrderCodes : List String :=
  ["si", "is", "ap", "pa", "lr", "rl", "hf",
   "hfsi", "hfis", "hfap", "hfpa", "hflr", "hfrl", "I", "Z"]

/-- SliceOrder.get: return the stored transform for a known code, raise
(modelled as Except.error carrying the message) otherwise. -/
def sliceOrderGet (order : String) : Except String M4 :=
  match sliceOrderTable.lookup order with
  | some t => Except.ok t
  | none => Except.error ("No such transform \"" ++ order ++ "\" exists.")

/-! ## Slice engine (slice_utils.py create_slice_plane, steps 1, 4 and 5,
and the identical recomputation in callbacks.py SlicePlaneCallback). -/

/-- The geometric inputs the engine reads off the volume reader:
GetDimensions() and GetSpacing(). -/
structure VolumeGeom where
  dims : ℕ × ℕ × ℕ
  spacing : ℚ × ℚ × ℚ

/-- The three orientations create_slice_plane is called with. -/
inductive PlaneOrientation where
  | XY
  | XZ
  | YZ

/-- The geometric outputs of create_slice_plane: the absolute slice
index, the physical coordinate, the reslice axes origin, the reslice
direction cosines (row-major, as a list) and the placement transform. -/
structure SliceGeom where
  actualSlice : ℤ
  pos : ℚ
  axesOrigin : ℚ × ℚ × ℚ
  dirCos : List ℚ
  transform : M4

/-- create_slice_plane (slice_utils.py), geometric content.  The
transform starts as a fresh vtkTransform (identity), gets Scale(1,-1,-1),
then the per-plane rotations, then Translate(0,0,-pos); the absolute
index adds (or for XZ subtracts from) half the matching dimension, using
integer floor division, and the physical position multiplies it by the
matching spacing component. -/
def create_slice_plane (orientation : PlaneOrientation) (vol : VolumeGeom)
    (slice_num : ℤ) : SliceGeom :=
  let transform := vtkScale idM4 1 (-1) (-1)
  match orientation with
  | .XY =>
      let actual_slice : ℤ := slice_num + (vol.dims.2.2 / 2 : ℕ)
      let z_pos : ℚ := (actual_slice : ℚ) * vol.spacing.2.2
      { actualSlice := actual_slice
        pos := z_pos
        axesOrigin := (0, 0, z_pos)
        dirCos := [1,0,0, 0,1,0, 0,0,1]
        transform := vtkTranslate transform 0 0 (-z_pos) }
  | .XZ =>
      let actual_slice : ℤ := -slice_num + (vol.dims.2.1 / 2 : ℕ)
      let y_pos : ℚ := (actual_slice : ℚ) * vol.spacing.2.1
      { actualSlice := actual_slice
        pos := y_pos
        axesOrigin := (0, y_pos, 0)
        dirCos := [-1,0,0, 0,0,1, 0,1,0]
        transform := vtkTranslate (vtkConcat (vtkConcat transform rotX90M) rotZ180M) 0 0 (-y_pos) }
  | .YZ =>
      let actual_slice : ℤ := slice_num + (vol.dims.1 / 2 : ℕ)
      let x_pos : ℚ := (actual_slice : ℚ) * vol.spacing.1
      { actualSlice := actual_slice
        pos := x_pos
        axesOrigin := (x_pos, 0, 0)
        dirCos := [0,1,0, 0,0,1, 1,0,0]
        transform := vtkTranslate (vtkConcat (vtkConcat transform rotYm90M) rotZ90M) 0 0 (-x_pos) }

/-- SlicePlaneCallback.__call__ (callbacks.py), geometric content: the
callback resets its transform with Identity(), reapplies Scale(1,-1,-1),
and recomputes index, position, origin and rotations exactly as
create_slice_plane does. -/
def slicePlaneCallbackUpdate (orientation : PlaneOrientation) (vol : VolumeGeom)
    (value : ℤ) : SliceGeom :=
  let transform := vtkScale idM4 1 (-1) (-1)
  match orientation with
  | .XY =>
      let actual_slice : ℤ := value + (vol.dims.2.2 / 2 : ℕ)
      let z_pos : ℚ := (actual_slice : ℚ) * vol.spacing.2.2
      { actualSlice := actual_slice
        pos := z_pos
        axesOrigin := (0, 0, z_pos)
        dirCos := [1,0,0, 0,1,0, 0,0,1]
        transform := vtkTranslate transform 0 0 (-z_pos) }
  | .XZ =>
      let actual_slice : ℤ := -value + (vol.dims.2.1 / 2 : ℕ)
      let y_pos : ℚ := (actual_slice : ℚ) * vol.spacing.2.1
      { actualSlice := actual_slice
        pos := y_pos
        axesOrigin := (0, y_pos, 0)
        dirCos := [-1,0,0, 0,0,1, 0,1,0]
        transform := vtkTranslate (vtkConcat (vtkConcat transform rotX90M) rotZ180M) 0 0 (-y_pos) }
  | .YZ =>
      let actual_slice : ℤ := value + (vol.dims.1 / 2 : ℕ)
      let x_pos : ℚ := (actual_slice : ℚ) * vol.spacing.1
      { actualSlice := actual_slice
        pos := x_pos
        axesOrigin := (x_pos, 0, 0)
        dirCos := [0,1,0, 0,0,1, 1,0,0]
        transform := vtkTranslate (vtkConcat (vtkConcat transform rotYm90M) rotZ90M) 0 0 (-x_pos) }

/-- GetOutput() of a reader that has not produced data: VTK hands back a
default-initialized empty vtkImageData, whose dimensions are (0,0,0) and
whose spacing is (1,1,1).  This models the external VTK reader boundary;
create_slice_plane itself contains no check on it. -/
def readerOutput : Option VolumeGeom → VolumeGeom
  | some v => v
  | none => { dims := (0, 0, 0), spacing := (1, 1, 1) }

/-- create_slice_plane including its step 1 (reader.Update();
GetOutput(); read spacing and dimensions): the function reads whatever
geometry the reader yields and proceeds; it has no failure path. -/
def create_slice_plane_io (reader : Option VolumeGeom)
    (orientation : PlaneOrientation) (slice_num : ℤ) : SliceGeom :=
  create_slice_plane orientation (readerOutput reader) slice_num

/-! ## Geometric signature and similarity comparator (geometry_utils.py). -/

/-- The 6-tuple GetBounds() returns: (xmin, xmax, ymin, ymax, zmin,
zmax), indices 0 to 5 in the source. -/
structure Bounds where
  xmin : ℚ
  xmax : ℚ
  ymin : ℚ
  ymax : ℚ
  zmin : ℚ
  zmax : ℚ
deriving DecidableEq

/-- The signature dictionary returned by calculate_polydata_signature:
point count, cell count, approximate (bounding-box) volume, and the six
bounds. -/
structure Signature where
  num_points : ℕ
  num_cells : ℕ
  volume : ℚ
  bounds : Bounds
deriving DecidableEq

/-- calculate_polydata_signature (geometry_utils.py): the volume field
is the product of the three bounding-box extents
(bounds[1]-bounds[0]) * (bounds[3]-bounds[2]) * (bounds[5]-bounds[4]). -/
def calculate_polydata_signature (num_points num_cells : ℕ) (bounds : Bounds) :
    Signature :=
  { num_points := num_points
    num_cells := num_cells
    volume := (bounds.xmax - bounds.xmin) * (bounds.ymax - bounds.ymin) *
      (bounds.zmax - bounds.zmin)
    bounds := bounds }

/-- points_ratio: smaller count divided by larger count. -/
def points_ratio (sig1 sig2 : Signature) : ℚ :=
  min (sig1.num_points : ℚ) (sig2.num_points : ℚ) /
    max (sig1.num_points : ℚ) (sig2.num_points : ℚ)

/-- cells_ratio: smaller count divided by larger count. -/
def cells_ratio (sig1 sig2 : Signature) : ℚ :=
  min (sig1.num_cells : ℚ) (sig2.num_cells : ℚ) /
    max (sig1.num_cells : ℚ) (sig2.num_cells : ℚ)

/-- volume_ratio: smaller volume divided by larger volume. -/
def volume_ratio (sig1 sig2 : Signature) : ℚ :=
  min sig1.volume sig2.volume / max sig1.volume sig2.volume

/-- The bounding-box center of a bounds 6-tuple: the midpoint in each
axis. -/
def boxCenter (b : Bounds) : ℚ × ℚ × ℚ :=
  ((b.xmin + b.xmax) / 2, (b.ymin + b.ymax) / 2, (b.zmin + b.zmax) / 2)

/-- The squared Euclidean distance between the two bounding-box centers
(the source takes math.sqrt of this sum of squares). -/
def center_dist_sq (sig1 sig2 : Signature) : ℚ :=
  ((boxCenter sig1.bounds).1 - (boxCenter sig2.bounds).1) ^ 2 +
    ((boxCenter sig1.bounds).2.1 - (boxCenter sig2.bounds).2.1) ^ 2 +
    ((boxCenter sig1.bounds).2.2 - (boxCenter sig2.bounds).2.2) ^ 2

/-- avg_size: the mean of the six absolute box extents (three per box). -/
def avg_size (sig1 sig2 : Signature) : ℚ :=
  (|sig1.bounds.xmax - sig1.bounds.xmin| + |sig1.bounds.ymax - sig1.bounds.ymin| +
    |sig1.bounds.zmax - sig1.bounds.zmin| + |sig2.bounds.xmax - sig2.bounds.xmin| +
    |sig2.bounds.ymax - sig2.bounds.ymin| + |sig2.bounds.zmax - sig2.bounds.zmin|) / 6

/-- The final center test of are_polydata_similar: center_similarity,
which is 1.0 when avg_size is 0 and max(0, 1 - dist/avg_size) otherwise,
must be at least the fixed constant 0.95. -/
def center_similarity_ok (sig1 sig2 : Signature) : Prop :=
  (if avg_size sig1 sig2 = 0 then (1 : ℝ)
   else max 0 (1 - Real.sqrt (center_dist_sq sig1 sig2) / (avg_size sig1 sig2 : ℝ)))
    ≥ 0.95

/-- are_polydata_similar (geometry_utils.py): return False as soon as a
point count, cell count or volume is zero, otherwise require the three
min/max ratios to reach the threshold and the center similarity to reach
the fixed 0.95 bar. -/
def are_polydata_similar (sig1 sig2 : Signature) (threshold : ℚ) : Prop :=
  if sig1.num_points = 0 ∨ sig2.num_points = 0 then False
  else if sig1.num_cells = 0 ∨ sig2.num_cells = 0 then False
  else if sig1.volume = 0 ∨ sig2.volume = 0 then False
  else
    points_ratio sig1 sig2 ≥ threshold ∧
    cells_ratio sig1 sig2 ≥ threshold ∧
    volume_ratio sig1 sig2 ≥ threshold ∧
    center_similarity_ok sig1 sig2

/-- Executable decision procedure for are_polydata_similar: the square
root comparison is replaced by the equivalent rational comparison of
squares (proved equivalent in are_polydata_similarB_iff below). -/
def are_polydata_similarB (sig1 sig2 : Signature) (threshold : ℚ) : Bool :=
  if sig1.num_points = 0 ∨ sig2.num_points = 0 then false
  else if sig1.num_cells = 0 ∨ sig2.num_cells = 0 then false
  else if sig1.volume = 0 ∨ sig2.volume = 0 then false
  else
    decide (points_ratio sig1 sig2 ≥ threshold) &&
    decide (cells_ratio sig1 sig2 ≥ threshold) &&
    decide (volume_ratio sig1 sig2 ≥ threshold) &&
    (decide (avg_size sig1 sig2 = 0) ||
      decide (center_dist_sq sig1 sig2 ≤ (avg_size sig1 sig2 / 20) ^ 2))

/-! ## Segmentation reconstruction pipeline (segmentation_utils.py).

create_segmentation_3d_model is modelled on its geometric content: per
label, the iso-surface extraction and smoothing stage is abstracted as
an input function giving the contour point count and the smoothed
signature for that label; the model keeps the list of
(label, signature) pairs the source appends to processed_signatures,
which is exactly the set of surfaces surviving deduplication. -/

/-- Per-label extraction result: the point count of the contour output
(checked against zero by the source) and the signature
calculate_polydata_signature computes for the smoothed surface. -/
structure LabelSurface where
  contourPoints : ℕ
  sig : Signature

/-- range(1, int(scalar_max) + 1): the labels the pipeline iterates, in
increasing order.  Python int() truncates toward zero, which on the
nonnegative scalar ranges of a label volume is the floor. -/
def labelRange (scalarMax : ℚ) : List ℕ :=
  List.range' 1 (Int.toNat ⌊scalarMax⌋)

/-- One iteration of the main loop: skip the label when its contour is
empty; skip it when its signature is similar to any previously accepted
signature at the given threshold; otherwise append (label, signature). -/
def processLabel (threshold : ℚ) (surf : ℕ → LabelSurface)
    (acc : List (ℕ × Signature)) (label : ℕ) : List (ℕ × Signature) :=
  if (surf label).contourPoints = 0 then acc
  else if acc.any (fun ps => are_polydata_similarB (surf label).sig ps.2 threshold)
  then acc
  else acc ++ [(label, (surf label).sig)]

/-- create_segmentation_3d_model, geometric content: fold the main loop
over labels 1 .. int(scalar_max), returning the surfaces surviving
deduplication (with their originating label values). -/
def create_segmentation_3d_model (scalarMax : ℚ) (surf : ℕ → LabelSurface)
    (threshold : ℚ) : List (ℕ × Signature) :=
  (labelRange scalarMax).foldl (processLabel threshold surf) []

/-- The default similarity threshold of create_segmentation_3d_model
(segmentation_utils.py, keyword default 0.90). -/
def default_similarity_threshold : ℚ := 0.90

/-- The similarity threshold the display-mode-3 branch of
SliderToggleCallback passes to create_segmentation_3d_model
(callbacks.py, similarity_threshold=0.0). -/
def mode3_similarity_threshold : ℚ := 0.0

/-! ## Concrete inputs used by witnesses and counterexamples. -/

/-- A well-formed bounding box, 10 units wide in each axis. -/
def demoBounds : Bounds := ⟨0, 10, 0, 10, 0, 10⟩

/-- A healthy signature: 100 points, 50 cells, volume 1000. -/
def demoSig : Signature := calculate_polydata_signature 100 50 demoBounds

/-- A signature with zero points (an empty surface). -/
def zeroSig : Signature :=
  { num_points := 0, num_cells := 5, volume := 3, bounds := ⟨0, 1, 0, 1, 0, 1⟩ }

/-- A degenerate but nonempty surface: points and cells present, yet the
bounding box is flat in Z, so the approximate volume is 0. -/
def degenSig : Signature :=
  { num_points := 4, num_cells := 2, volume := 0, bounds := ⟨0, 1, 0, 1, 0, 0⟩ }

/-- An extraction in which every label yields the degenerate surface
with a nonempty (4-point) contour. -/
def degenSurf : ℕ → LabelSurface := fun _ => ⟨4, degenSig⟩

/-! ## Helper theorems. -/

/-- Applying a product of transforms applies the right factor first:
this is the point-level meaning of PreMultiply concatenation. -/
theorem applyM_mmul (a b : M4) (hb : affineRow b) (p : V3) :
    applyM (mmul a b) p = applyM a (applyM b p) := by
  obtain ⟨h0, h1, h2, h3⟩ := hb
  obtain ⟨x, y, z⟩ := p
  simp only [applyM, mmul]
  refine Prod.ext ?_ (Prod.ext ?_ ?_) <;> simp only [] <;> rw [h0, h1, h2, h3] <;> ring

/-- Lookup in an association list succeeds exactly on the stored keys. -/
theorem lookup_ok_iff_mem_keys (l : List (String × M4)) (k : String) :
    (∃ v, l.lookup k = some v) ↔ k ∈ l.map Prod.fst := by
  induction l with
  | nil => simp [List.lookup]
  | cons a as ih =>
    by_cases h : k = a.1
    · subst h
      simp [List.lookup]
    · have hbeq : (k == a.1) = false := beq_false_of_ne h
      simp [List.lookup, hbeq, ih, h]

theorem center_dist_sq_nonneg (sig1 sig2 : Signature) : 0 ≤ center_dist_sq sig1 sig2 := by
  have h1 := sq_nonneg ((boxCenter sig1.bounds).1 - (boxCenter sig2.bounds).1)
  have h2 := sq_nonneg ((boxCenter sig1.bounds).2.1 - (boxCenter sig2.bounds).2.1)
  have h3 := sq_nonneg ((boxCenter sig1.bounds).2.2 - (boxCenter sig2.bounds).2.2)
  unfold center_dist_sq
  linarith

theorem avg_size_nonneg (sig1 sig2 : Signature) : 0 ≤ avg_size sig1 sig2 := by
  unfold avg_size
  have h1 := abs_nonneg (sig1.bounds.xmax - sig1.bounds.xmin)
  have h2 := abs_nonneg (sig1.bounds.ymax - sig1.bounds.ymin)
  have h3 := abs_nonneg (sig1.bounds.zmax - sig1.bounds.zmin)
  have h4 := abs_nonneg (sig2.bounds.xmax - sig2.bounds.xmin)
  have h5 := abs_nonneg (sig2.bounds.ymax - sig2.bounds.ymin)
  have h6 := abs_nonneg (sig2.bounds.zmax - sig2.bounds.zmin)
  linarith

/-- The center test, reduced to a decidable rational condition: either
the average size is zero, or the squared center distance is at most the
square of 5 percent of the average size. -/
theorem center_similarity_ok_iff (sig1 sig2 : Signature) :
    center_similarity_ok sig1 sig2 ↔
      (avg_size sig1 sig2 = 0 ∨
        center_dist_sq sig1 sig2 ≤ (avg_size sig1 sig2 / 20) ^ 2) := by
  unfold center_similarity_ok
  by_cases h : avg_size sig1 sig2 = 0
  · rw [if_pos h]
    constructor
    · intro _
      exact Or.inl h
    · intro _
      norm_num
  · have hpos : (0 : ℚ) < avg_size sig1 sig2 :=
      lt_of_le_of_ne (avg_size_nonneg sig1 sig2) (Ne.symm h)
    have hposR : (0 : ℝ) < (avg_size sig1 sig2 : ℝ) := by exact_mod_cast hpos
    rw [if_neg h]
    have hkey : Real.sqrt (center_dist_sq sig1 sig2) ≤ (avg_size sig1 sig2 : ℝ) / 20
        ↔ center_dist_sq sig1 sig2 ≤ (avg_size sig1 sig2 / 20) ^ 2 := by
      rw [Real.sqrt_le_left (by positivity)]
      constructor
      · intro hh
        exact_mod_cast hh
      · intro hh
        exact_mod_cast hh
    constructor
    · intro hle
      right
      rcases le_max_iff.mp hle with hbad | hgood
      · norm_num at hbad
      · apply hkey.mp
        have hdiv : Real.sqrt (center_dist_sq sig1 sig2) / (avg_size sig1 sig2 : ℝ)
            ≤ 1 / 20 := by linarith
        rw [div_le_iff₀ hposR] at hdiv
        linarith
    · rintro (hz | hle)
      · exact absurd hz h
      · have hsq := hkey.mpr hle
        have hdiv : Real.sqrt (center_dist_sq sig1 sig2) / (avg_size sig1 sig2 : ℝ)
            ≤ 1 / 20 := by
          rw [div_le_iff₀ hposR]
          linarith
        refine le_max_iff.mpr (Or.inr ?_)
        linarith

/-- are_polydata_similar written as one flat conjunction: the sequential
early returns of the source collapse into nonzero requirements on all
six metrics. -/
theorem are_polydata_similar_iff (sig1 sig2 : Signature) (threshold : ℚ) :
    are_polydata_similar sig1 sig2 threshold ↔
      (sig1.num_points ≠ 0 ∧ sig2.num_points ≠ 0 ∧
       sig1.num_cells ≠ 0 ∧ sig2.num_cells ≠ 0 ∧
       sig1.volume ≠ 0 ∧ sig2.volume ≠ 0 ∧
       points_ratio sig1 sig2 ≥ threshold ∧
       cells_ratio sig1 sig2 ≥ threshold ∧
       volume_ratio sig1 sig2 ≥ threshold ∧
       center_similarity_ok sig1 sig2) := by
  unfold are_polydata_similar
  split_ifs with h1 h2 h3
  · simp only [false_iff]
    intro hc
    tauto
  · simp only [false_iff]
    intro hc
    tauto
  · simp only [false_iff]
    intro hc
    tauto
  · push_neg at h1 h2 h3
    constructor
    · intro hc
      exact ⟨h1.1, h1.2, h2.1, h2.2, h3.1, h3.2, hc.1, hc.2.1, hc.2.2.1, hc.2.2.2⟩
    · intro hc
      exact ⟨hc.2.2.2.2.2.2.1, hc.2.2.2.2.2.2.2.1, hc.2.2.2.2.2.2.2.2.1,
        hc.2.2.2.2.2.2.2.2.2⟩

/-- The Bool decision procedure agrees with are_polydata_similar. -/
theorem are_polydata_similarB_iff (sig1 sig2 : Signature) (threshold : ℚ) :
    are_polydata_similarB sig1 sig2 threshold = true ↔
      are_polydata_similar sig1 sig2 threshold := by
  unfold are_polydata_similarB are_polydata_similar
  split_ifs with h1 h2 h3
  · simp
  · simp
  · simp
  · simp only [Bool.and_eq_true, Bool.or_eq_true, decide_eq_true_eq]
    rw [center_similarity_ok_iff]
    tauto

/-- One loop iteration either leaves the accumulator unchanged or
appends the pair for the current label, in which case that label had a
nonempty contour. -/
theorem processLabel_cases (threshold : ℚ) (surf : ℕ → LabelSurface)
    (acc : List (ℕ × Signature)) (label : ℕ) :
    processLabel threshold surf acc label = acc ∨
      (processLabel threshold surf acc label = acc ++ [(label, (surf label).sig)] ∧
        (surf label).contourPoints ≠ 0) := by
  unfold processLabel
  split_ifs with h0 h1
  · exact Or.inl rfl
  · exact Or.inl rfl
  · exact Or.inr ⟨rfl, h0⟩

/-- Invariant of the main loop: starting from an accumulator with
pairwise distinct labels, none of which will be revisited, and whose
pairs all record genuinely extracted surfaces, the loop preserves label
distinctness and that record property. -/
theorem foldl_processLabel_invariant (threshold : ℚ) (surf : ℕ → LabelSurface)
    (ls : List ℕ) :
    ∀ acc : List (ℕ × Signature),
      (acc.map Prod.fst).Nodup → (∀ p ∈ acc, p.1 ∉ ls) → ls.Nodup →
      (∀ p ∈ acc, (surf p.1).contourPoints ≠ 0 ∧ p.2 = (surf p.1).sig) →
      ((ls.foldl (processLabel threshold surf) acc).map Prod.fst).Nodup ∧
        ∀ p ∈ ls.foldl (processLabel threshold surf) acc,
          (surf p.1).contourPoints ≠ 0 ∧ p.2 = (surf p.1).sig := by
  induction ls with
  | nil =>
    intro acc hnd _ _ hP
    exact ⟨hnd, hP⟩
  | cons l ls ih =>
    intro acc hnd hdisj hlsnd hP
    rw [List.foldl_cons]
    rcases processLabel_cases threshold surf acc l with hcase | ⟨hcase, hne⟩
    · rw [hcase]
      exact ih acc hnd
        (fun p hp hm => hdisj p hp (List.mem_cons_of_mem _ hm))
        (List.Nodup.of_cons hlsnd) hP
    · rw [hcase]
      apply ih (acc ++ [(l, (surf l).sig)])
      · rw [List.map_append, List.nodup_append]
        refine ⟨hnd, by simp, ?_⟩
        intro a ha hb
        obtain ⟨p, hp, rfl⟩ := List.mem_map.mp ha
        simp only [List.map_cons, List.map_nil, List.mem_singleton] at hb
        exact hdisj p hp (hb ▸ List.mem_cons_self l ls)
      · intro p hp
        rcases List.mem_append.mp hp with hmem | hmem
        · exact fun hm => hdisj p hmem (List.mem_cons_of_mem _ hm)
        · simp only [List.mem_singleton] at hmem
          subst hmem
          exact (List.nodup_cons.mp hlsnd).1
      · exact (List.nodup_cons.mp hlsnd).2
      · intro p hp
        rcases List.mem_append.mp hp with hmem | hmem
        · exact hP p hmem
        · simp only [List.mem_singleton] at hmem
          subst hmem
          exact ⟨hne, rfl⟩

/-- Labels with an empty contour contribute nothing to the fold: the
loop over any label list computes the same result as the loop over only
the labels with nonempty contours. -/
theorem foldl_processLabel_filter (threshold : ℚ) (surf : ℕ → LabelSurface)
    (ls : List ℕ) :
    ∀ acc : List (ℕ × Signature),
      (ls.filter (fun l => decide ((surf l).contourPoints ≠ 0))).foldl
          (processLabel threshold surf) acc =
        ls.foldl (processLabel threshold surf) acc := by
  induction ls with
  | nil =>
    intro acc
    rfl
  | cons l ls ih =>
    intro acc
    by_cases h : (surf l).contourPoints = 0
    · have hskip : processLabel threshold surf acc l = acc := by
        unfold processLabel
        rw [if_pos h]
      rw [List.filter_cons, if_neg (by simp [h]), List.foldl_cons, hskip]
      exact ih acc
    · rw [List.filter_cons, if_pos (by simp [h]), List.foldl_cons, List.foldl_cons]
      exact ih (processLabel threshold surf acc l)

/-! ## Claims. -/

/-- C1: for signatures whose point counts, cell counts and volumes are
all nonzero, are_polydata_similar at threshold t holds exactly when the
three min/max ratios (points, cells, volume) all reach t and the center
similarity (1.0 when avg_size is 0, else max(0, 1 - dist/avg_size) with
dist the Euclidean distance of the box centers and avg_size the mean of
the six absolute extents) reaches the fixed bar 0.95, which does not
depend on t. -/
theorem c1_similar_characterization (sig1 sig2 : Signature) (t : ℚ)
    (hp1 : sig1.num_points ≠ 0) (hp2 : sig2.num_points ≠ 0)
    (hc1 : sig1.num_cells ≠ 0) (hc2 : sig2.num_cells ≠ 0)
    (hv1 : sig1.volume ≠ 0) (hv2 : sig2.volume ≠ 0) :
    are_polydata_similar sig1 sig2 t ↔
      (min (sig1.num_points : ℚ) (sig2.num_points : ℚ) /
          max (sig1.num_points : ℚ) (sig2.num_points : ℚ) ≥ t ∧
       min (sig1.num_cells : ℚ) (sig2.num_cells : ℚ) /
          max (sig1.num_cells : ℚ) (sig2.num_cells : ℚ) ≥ t ∧
       min sig1.volume sig2.volume / max sig1.volume sig2.volume ≥ t ∧
       (if avg_size sig1 sig2 = 0 then (1 : ℝ)
        else max 0 (1 - Real.sqrt (center_dist_sq sig1 sig2) /
          (avg_size sig1 sig2 : ℝ))) ≥ 0.95) := by
  rw [are_polydata_similar_iff]
  simp only [points_ratio, cells_ratio, volume_ratio, center_similarity_ok]
  tauto

/-- C1 witness: the characterization applied to a concrete healthy
signature against itself at threshold 0.90 yields similarity. -/
theorem c1_witness : are_polydata_similar demoSig demoSig (9 / 10) := by
  rw [c1_similar_characterization demoSig demoSig (9 / 10)
    (by norm_num [demoSig, calculate_polydata_signature])
    (by norm_num [demoSig, calculate_polydata_signature])
    (by norm_num [demoSig, calculate_polydata_signature])
    (by norm_num [demoSig, calculate_polydata_signature])
    (by norm_num [demoSig, demoBounds, calculate_polydata_signature])
    (by norm_num [demoSig, demoBounds, calculate_polydata_signature])]
  refine ⟨?_, ?_, ?_, ?_⟩ <;>
    norm_num [demoSig, demoBounds, calculate_polydata_signature, center_dist_sq,
      avg_size, boxCenter, Real.sqrt_zero]

/-- C2 counterexample: the stored hfsi transform is hf_mat * si_mat
(PreMultiply), and applied to the point (0,0,1) it yields (0,1,0),
whereas applying hf first and then si yields (0,-1,0): the claimed
hf-first order is false at this point. -/
theorem c2_counterexample :
    sliceOrderGet "hfsi" = Except.ok (vtkConcat hf_mat si_mat) ∧
    applyM (vtkConcat hf_mat si_mat) (0, 0, 1) = (0, 1, 0) ∧
    applyM si_mat (applyM hf_mat (0, 0, 1)) = (0, -1, 0) ∧
    applyM (vtkConcat hf_mat si_mat) (0, 0, 1) ≠
      applyM si_mat (applyM hf_mat (0, 0, 1)) := by
  refine ⟨rfl, ?_, ?_, ?_⟩ <;>
    norm_num [applyM, vtkConcat, mmul, hf_mat, si_mat, Prod.ext_iff]

/-- C2 (amended): for every point p, each composite hf* table entry
applied to p equals applying the base correction (si, is, ap-scale,
pa-scale, lr, rl) to p FIRST and then applying the hf matrix to the
result: under the PreMultiply semantics of the transform object, the
matrix installed first (hf) acts on points last. -/
theorem c2_composite_order (p : V3) :
    applyM (vtkConcat hf_mat si_mat) p = applyM hf_mat (applyM si_mat p) ∧
    applyM (vtkConcat hf_mat is_mat) p = applyM hf_mat (applyM is_mat p) ∧
    applyM (vtkScale hf_mat 1 (-1) 1) p = applyM hf_mat (applyM (scaleM 1 (-1) 1) p) ∧
    applyM (vtkScale hf_mat 1 (-1) (-1)) p = applyM hf_mat (applyM (scaleM 1 (-1) (-1)) p) ∧
    applyM (vtkConcat hf_mat lr_mat) p = applyM hf_mat (applyM lr_mat p) ∧
    applyM (vtkConcat hf_mat rl_mat) p = applyM hf_mat (applyM rl_mat p) := by
  refine ⟨?_, ?_, ?_, ?_, ?_, ?_⟩ <;>
    exact applyM_mmul _ _
      (by norm_num [affineRow, si_mat, is_mat, scaleM, lr_mat, rl_mat]) p

/-- C3: for every volume geometry and integer slice number, the slice
engine computes the absolute index as slice + dimZ/2 for XY (origin
(0,0,z)), as -slice + dimY/2 for XZ (origin (0,y,0)), and as
slice + dimX/2 for YZ (origin (x,0,0)); the physical coordinate is
always the absolute index times the matching spacing component, two of
the three origin components are zero, and the placement transform is
identity, then Scale(1,-1,-1), then the plane-specific rotations (none;
RotateX 90 and RotateZ 180; RotateY -90 and RotateZ 90), then
Translate(0,0,-coordinate); the slider callback recomputes exactly the
same geometry. -/
theorem c3_slice_engine (vol : VolumeGeom) (s : ℤ) :
    ((create_slice_plane PlaneOrientation.XY vol s).actualSlice
        = s + ((vol.dims.2.2 / 2 : ℕ) : ℤ) ∧
      (create_slice_plane PlaneOrientation.XY vol s).pos
        = ((create_slice_plane PlaneOrientation.XY vol s).actualSlice : ℚ) * vol.spacing.2.2 ∧
      (create_slice_plane PlaneOrientation.XY vol s).axesOrigin
        = (0, 0, (create_slice_plane PlaneOrientation.XY vol s).pos) ∧
      (create_slice_plane PlaneOrientation.XY vol s).transform
        = mmul (mmul idM4 (scaleM 1 (-1) (-1)))
            (transM 0 0 (-(create_slice_plane PlaneOrientation.XY vol s).pos))) ∧
    ((create_slice_plane PlaneOrientation.XZ vol s).actualSlice
        = -s + ((vol.dims.2.1 / 2 : ℕ) : ℤ) ∧
      (create_slice_plane PlaneOrientation.XZ vol s).pos
        = ((create_slice_plane PlaneOrientation.XZ vol s).actualSlice : ℚ) * vol.spacing.2.1 ∧
      (create_slice_plane PlaneOrientation.XZ vol s).axesOrigin
        = (0, (create_slice_plane PlaneOrientation.XZ vol s).pos, 0) ∧
      (create_slice_plane PlaneOrientation.XZ vol s).transform
        = mmul (mmul (mmul (mmul idM4 (scaleM 1 (-1) (-1))) rotX90M) rotZ180M)
            (transM 0 0 (-(create_slice_plane PlaneOrientation.XZ vol s).pos))) ∧
    ((create_slice_plane PlaneOrientation.YZ vol s).actualSlice
        = s + ((vol.dims.1 / 2 : ℕ) : ℤ) ∧
      (create_slice_plane PlaneOrientation.YZ vol s).pos
        = ((create_slice_plane PlaneOrientation.YZ vol s).actualSlice : ℚ) * vol.spacing.1 ∧
      (create_slice_plane PlaneOrientation.YZ vol s).axesOrigin
        = ((create_slice_plane PlaneOrientation.YZ vol s).pos, 0, 0) ∧
      (create_slice_plane PlaneOrientation.YZ vol s).transform
        = mmul (mmul (mmul (mmul idM4 (scaleM 1 (-1) (-1))) rotYm90M) rotZ90M)
            (transM 0 0 (-(create_slice_plane PlaneOrientation.YZ vol s).pos))) ∧
    (∀ o : PlaneOrientation, slicePlaneCallbackUpdate o vol s = create_slice_plane o vol s) := by
  refine ⟨⟨rfl, rfl, rfl, rfl⟩, ⟨rfl, rfl, rfl, rfl⟩, ⟨rfl, rfl, rfl, rfl⟩, fun o => ?_⟩
  cases o <;> rfl

/-- C4 counterexample: the orientation table holds 15 entries, not 16 as
the claim counts them. -/
theorem c4_counterexample :
    sliceOrderTable.length = 15 ∧ sliceOrderTable.length ≠ 16 := by
  constructor
  · rfl
  · decide

/-- C4 (amended): the table is a fixed 15-entry catalog: get succeeds
exactly on the 15 listed codes and returns an unknown-orientation error
for every other string, in particular for the code unknown. -/
theorem c4_get_contract :
    (∀ order : String,
      (∃ t, sliceOrderGet order = Except.ok t) ↔ order ∈ sliceOrderCodes) ∧
    (∀ t : M4, sliceOrderGet "unknown" ≠ Except.ok t) := by
  have hmain : ∀ order : String,
      (∃ t, sliceOrderGet order = Except.ok t) ↔ order ∈ sliceOrderCodes := by
    intro order
    have h1 : (∃ t, sliceOrderGet order = Except.ok t) ↔
        (∃ v, sliceOrderTable.lookup order = some v) := by
      unfold sliceOrderGet
      cases hl : sliceOrderTable.lookup order with
      | none => simp
      | some t => simp
    rw [h1, lookup_ok_iff_mem_keys]
    simp [sliceOrderTable, sliceOrderCodes]
  refine ⟨hmain, ?_⟩
  intro t ht
  have h := (hmain "unknown").mp ⟨t, ht⟩
  simp [sliceOrderCodes] at h

/-- C4 witness: the contract applied at the concrete code si. -/
theorem c4_witness : "si" ∈ sliceOrderCodes :=
  (c4_get_contract.1 "si").mp ⟨si_mat, rfl⟩

/-- C5 counterexample: with a reader that has produced no data,
create_slice_plane does not fail: for the XY plane at slice 5 it
silently returns a normal slice geometry (index 5, coordinate 5,
origin (0,0,5)) computed from the default empty volume. -/
theorem c5_counterexample :
    (create_slice_plane_io none PlaneOrientation.XY 5).actualSlice = 5 ∧
    (create_slice_plane_io none PlaneOrientation.XY 5).pos = 5 ∧
    (create_slice_plane_io none PlaneOrientation.XY 5).axesOrigin = (0, 0, 5) := by
  refine ⟨rfl, ?_, ?_⟩ <;>
    norm_num [create_slice_plane_io, create_slice_plane, readerOutput]

/-- C5 (amended): create_slice_plane performs no missing-volume-data
check: when the reader has produced no data it reads the default empty
geometry (dimensions (0,0,0), spacing (1,1,1)) and returns a slice
plane normally, for every orientation and slice number, with the
physical coordinate equal to the absolute index (spacing 1). -/
theorem c5_no_data_check (o : PlaneOrientation) (s : ℤ) :
    create_slice_plane_io none o s
      = create_slice_plane o { dims := (0, 0, 0), spacing := (1, 1, 1) } s ∧
    (create_slice_plane_io none o s).pos
      = ((create_slice_plane_io none o s).actualSlice : ℚ) := by
  constructor
  · rfl
  · cases o <;> simp [create_slice_plane_io, create_slice_plane, readerOutput]

/-- C5 witness: the no-check behavior at the concrete request (XZ, 7). -/
theorem c5_witness :
    (create_slice_plane_io none PlaneOrientation.XZ 7).pos
      = ((create_slice_plane_io none PlaneOrientation.XZ 7).actualSlice : ℚ) :=
  (c5_no_data_check PlaneOrientation.XZ 7).2

/-- C6: the pipeline iterates exactly the integer labels 1 .. floor of
the scalar maximum, in increasing order: 0 is never iterated, every
iterated label lies between 1 and the floor, a scalar maximum of
exactly 3 gives labels [1, 2, 3], and labels whose contour is empty are
skipped without effect: folding over any label list equals folding over
only its labels with nonempty contours. -/
theorem c6_label_iteration :
    (∀ scalarMax : ℚ, labelRange scalarMax = List.range' 1 (Int.toNat ⌊scalarMax⌋)) ∧
    (∀ scalarMax : ℚ, 0 ∉ labelRange scalarMax) ∧
    (∀ scalarMax : ℚ, ∀ l ∈ labelRange scalarMax, 1 ≤ l ∧ (l : ℤ) ≤ ⌊scalarMax⌋) ∧
    labelRange 3 = [1, 2, 3] ∧
    (∀ (threshold : ℚ) (surf : ℕ → LabelSurface) (ls : List ℕ)
        (acc : List (ℕ × Signature)),
      ls.foldl (processLabel threshold surf) acc =
        (ls.filter (fun l => decide ((surf l).contourPoints ≠ 0))).foldl
          (processLabel threshold surf) acc) := by
  refine ⟨fun _ => rfl, ?_, ?_, ?_, ?_⟩
  · intro M h
    have := List.mem_range'_1.mp h
    omega
  · intro M l hl
    have hm := List.mem_range'_1.mp hl
    refine ⟨hm.1, ?_⟩
    omega
  · show List.range' 1 (Int.toNat ⌊(3 : ℚ)⌋) = [1, 2, 3]
    rw [show ((3 : ℚ)) = ((3 : ℤ) : ℚ) by norm_num, Int.floor_intCast]
    rfl
  · intro threshold surf ls acc
    exact (foldl_processLabel_filter threshold surf ls acc).symm

/-- C6 witness: label 1 is iterated for scalar maximum 3 and lies in
the promised range. -/
theorem c6_witness : 1 ≤ 1 ∧ ((1 : ℕ) : ℤ) ≤ ⌊(3 : ℚ)⌋ :=
  c6_label_iteration.2.2.1 3 1 (by rw [c6_label_iteration.2.2.2.1]; decide)

/-- C7 counterexample: a run on a volume with scalar maximum 1 whose
label 1 extracts a 4-point contour whose smoothed surface has a flat
bounding box produces a surviving surface with volume 0: the claimed
non-empty-signature invariant fails (zero-metric signatures are never
flagged as duplicates, and the pipeline only rejects empty contours). -/
theorem c7_counterexample :
    create_segmentation_3d_model 1 degenSurf default_similarity_threshold
      = [(1, degenSig)] ∧
    degenSig.volume = 0 := by
  constructor
  · norm_num [create_segmentation_3d_model, labelRange, processLabel, List.range',
      degenSurf, default_similarity_threshold]
  · rfl

/-- C7 (amended): after any run, the surviving surfaces carry pairwise
distinct label values, and every surviving surface records a label whose
contour extraction was nonempty, with exactly the signature computed for
that label; the signature itself may still be degenerate (for example
zero volume). -/
theorem c7_survivors_invariant (scalarMax threshold : ℚ) (surf : ℕ → LabelSurface) :
    ((create_segmentation_3d_model scalarMax surf threshold).map Prod.fst).Nodup ∧
    ∀ p ∈ create_segmentation_3d_model scalarMax surf threshold,
      (surf p.1).contourPoints ≠ 0 ∧ p.2 = (surf p.1).sig := by
  unfold create_segmentation_3d_model
  exact foldl_processLabel_invariant threshold surf (labelRange scalarMax) []
    (by simp) (by simp) (by unfold labelRange; exact List.nodup_range' 1 _) (by simp)

/-- C7 witness: distinct surviving labels on a concrete run. -/
theorem c7_witness :
    ((create_segmentation_3d_model 3 degenSurf mode3_similarity_threshold).map
      Prod.fst).Nodup :=
  (c7_survivors_invariant 3 mode3_similarity_threshold degenSurf).1

/-- C8: a signature with zero points, zero cells or zero volume is never
similar to any signature (itself included), in either argument position,
at any threshold; the comparator returns False before any division is
attempted. -/
theorem c8_zero_never_similar (sig1 : Signature)
    (h : sig1.num_points = 0 ∨ sig1.num_cells = 0 ∨ sig1.volume = 0) :
    ∀ (sig2 : Signature) (t : ℚ),
      ¬ are_polydata_similar sig1 sig2 t ∧ ¬ are_polydata_similar sig2 sig1 t := by
  intro sig2 t
  constructor
  · rw [are_polydata_similar_iff]
    intro hc
    tauto
  · rw [are_polydata_similar_iff]
    intro hc
    tauto

/-- C8 witness: the zero-point signature against the healthy one, both
ways, at threshold 0.90. -/
theorem c8_witness :
    ¬ are_polydata_similar zeroSig demoSig (9 / 10) ∧
    ¬ are_polydata_similar demoSig zeroSig (9 / 10) :=
  c8_zero_never_similar zeroSig (Or.inl rfl) demoSig (9 / 10)

/-- C9: similarity is monotone in the threshold: lowering the threshold
preserves a positive similarity verdict. -/
theorem c9_threshold_monotone (sigA sigB : Signature) (t1 t2 : ℚ) (hlt : t2 < t1)
    (hsim : are_polydata_similar sigA sigB t1) :
    are_polydata_similar sigA sigB t2 := by
  rw [are_polydata_similar_iff] at hsim ⊢
  obtain ⟨h1, h2, h3, h4, h5, h6, h7, h8, h9, h10⟩ := hsim
  exact ⟨h1, h2, h3, h4, h5, h6, le_trans hlt.le h7, le_trans hlt.le h8,
    le_trans hlt.le h9, h10⟩

/-- C9 witness: monotonicity applied to a concrete similar pair at
thresholds 0.90 and 0. -/
theorem c9_witness : are_polydata_similar demoSig demoSig 0 := by
  apply c9_threshold_monotone demoSig demoSig (9 / 10) 0 (by norm_num)
  rw [are_polydata_similar_iff]
  refine ⟨?_, ?_, ?_, ?_, ?_, ?_, ?_, ?_, ?_, ?_⟩ <;>
    norm_num [demoSig, demoBounds, calculate_polydata_signature, points_ratio,
      cells_ratio, volume_ratio, center_similarity_ok_iff, center_dist_sq,
      avg_size, boxCenter]

/-- C10: the display-mode-3 branch passes similarity_threshold 0.0, not
the documented default 0.90; at threshold 0 and for signatures computed
by calculate_polydata_signature from ordered bounds, the three ratio
tests can never reject, so the comparator accepts exactly when all six
point/cell/volume metrics are nonzero and the center similarity reaches
the fixed 0.95 bar. -/
theorem c10_mode3_threshold (np1 nc1 np2 nc2 : ℕ) (b1 b2 : Bounds)
    (ho1 : b1.xmin ≤ b1.xmax) (ho2 : b1.ymin ≤ b1.ymax) (ho3 : b1.zmin ≤ b1.zmax)
    (ho4 : b2.xmin ≤ b2.xmax) (ho5 : b2.ymin ≤ b2.ymax) (ho6 : b2.zmin ≤ b2.zmax) :
    (are_polydata_similar (calculate_polydata_signature np1 nc1 b1)
        (calculate_polydata_signature np2 nc2 b2) mode3_similarity_threshold ↔
      (np1 ≠ 0 ∧ np2 ≠ 0 ∧ nc1 ≠ 0 ∧ nc2 ≠ 0 ∧
        (calculate_polydata_signature np1 nc1 b1).volume ≠ 0 ∧
        (calculate_polydata_signature np2 nc2 b2).volume ≠ 0 ∧
        center_similarity_ok (calculate_polydata_signature np1 nc1 b1)
          (calculate_polydata_signature np2 nc2 b2))) ∧
    mode3_similarity_threshold = 0 ∧
    mode3_similarity_threshold ≠ default_similarity_threshold := by
  have hzero : mode3_similarity_threshold = 0 := by
    norm_num [mode3_similarity_threshold]
  refine ⟨?_, hzero, ?_⟩
  · rw [are_polydata_similar_iff, hzero]
    constructor
    · intro hc
      exact ⟨hc.1, hc.2.1, hc.2.2.1, hc.2.2.2.1, hc.2.2.2.2.1, hc.2.2.2.2.2.1,
        hc.2.2.2.2.2.2.2.2.2⟩
    · rintro ⟨hp1, hp2, hc1, hc2, hv1, hv2, hcs⟩
      have hv1n : (0 : ℚ) ≤ (calculate_polydata_signature np1 nc1 b1).volume := by
        unfold calculate_polydata_signature
        exact mul_nonneg (mul_nonneg (sub_nonneg.mpr ho1) (sub_nonneg.mpr ho2))
          (sub_nonneg.mpr ho3)
      have hv2n : (0 : ℚ) ≤ (calculate_polydata_signature np2 nc2 b2).volume := by
        unfold calculate_polydata_signature
        exact mul_nonneg (mul_nonneg (sub_nonneg.mpr ho4) (sub_nonneg.mpr ho5))
          (sub_nonneg.mpr ho6)
      refine ⟨hp1, hp2, hc1, hc2, hv1, hv2, ?_, ?_, ?_, hcs⟩
      · exact div_nonneg (le_min (by positivity) (by positivity))
          (le_trans (by positivity) (le_max_left _ _))
      · exact div_nonneg (le_min (by positivity) (by positivity))
          (le_trans (by positivity) (le_max_left _ _))
      · exact div_nonneg (le_min hv1n hv2n) (le_trans hv1n (le_max_left _ _))
  · norm_num [mode3_similarity_threshold, default_similarity_threshold]

/-- C10 witness: the threshold facts extracted by applying the theorem
at a concrete well-formed signature pair. -/
theorem c10_witness :
    mode3_similarity_threshold = 0 ∧
    mode3_similarity_threshold ≠ default_similarity_threshold :=
  (c10_mode3_threshold 100 50 100 50 demoBounds demoBounds
    (by norm_num [demoBounds]) (by norm_num [demoBounds]) (by norm_num [demoBounds])
    (by norm_num [demoBounds]) (by norm_num [demoBounds]) (by norm_num [demoBounds])).2
